import Mathlib

/-!
Verification development for the matrix-bot-help repository.

The repository is a Matrix chat bot with two source files:
* `src/lib.rs` — configuration parsing (TOML), the `HelpFormat` enum, and the
  pure message-filtering predicate `should_ignore_user`;
* `src/main.rs` — the event handlers `on_room_message`,
  `on_stripped_state_member` (invite + join retry loop) and `on_room_member`
  (join detection + welcome message).

The definitions below are a shallow embedding of that code.  External
collaborators (the matrix-sdk client, the tokio runtime, the toml crate's
parser) are modelled at the boundary: the result of a `room.join()` call is an
input (`joinOk`), the result of `room.send(..)` is an input (`sendOk`), and a
parsed TOML document is an input (`Option Value`, `none` meaning the text was
not valid TOML).  Handler side effects (log lines, sends, sleeps) are
reified as values in output lists, in the order the code performs them.

Rust strings are modelled as Lean `String`; because several `String` library
functions in this toolchain do not reduce in the kernel, the string
operations used by the source (`to_lowercase`, `contains`, `starts_with`)
are given explicit executable definitions over the character list.
-/

/-! ## String operations used by the source (Rust `str` methods) -/

/-- Model of Rust `str::starts_with` at the character level:
`isPrefixChars p l` is true when `p` is a prefix of `l`. -/
def isPrefixChars : List Char → List Char → Bool
  | [], _ => true
  | _ :: _, [] => false
  | a :: as, b :: bs => a == b && isPrefixChars as bs

/-- Model of Rust `str::contains` at the character level:
`containsChars p l` is true when `p` occurs contiguously inside `l`. -/
def containsChars (pat : List Char) : List Char → Bool
  | [] => isPrefixChars pat []
  | b :: bs => isPrefixChars pat (b :: bs) || containsChars pat bs

/-- Model of Rust `str::to_lowercase` (ASCII case mapping, as the
identities handled by the bot are ASCII Matrix IDs). -/
def strLower (s : String) : String := String.mk (s.data.map Char.toLower)

/-- Model of Rust `s.contains(pat)`. -/
def strContains (s pat : String) : Bool := containsChars pat.data s.data

/-- Model of Rust `s.starts_with(pre)`. -/
def strStartsWith (s pre : String) : Bool := isPrefixChars pre.data s.data

/-! ## `src/lib.rs`: `HelpFormat` -/

/-- Help format options for displaying help text (source: `enum HelpFormat`). -/
inductive HelpFormat where
  | Plain
  | Html
  | Markdown
deriving DecidableEq

/-- Source: `impl FromStr for HelpFormat` — lowercases the input and accepts
`"plain"`, `"html"`, `"markdown"` and `"md"`; anything else is an error. -/
def HelpFormat.from_str (s : String) : Except String HelpFormat :=
  match strLower s with
  | "plain" => Except.ok HelpFormat.Plain
  | "html" => Except.ok HelpFormat.Html
  | "markdown" => Except.ok HelpFormat.Markdown
  | "md" => Except.ok HelpFormat.Markdown
  | _ =>
    Except.error
      ("Invalid help format " ++ s ++ ". Valid options are: plain, html, markdown")

/-- Source: `impl Display for HelpFormat`. -/
def HelpFormat.display : HelpFormat → String
  | HelpFormat.Plain => "plain"
  | HelpFormat.Html => "html"
  | HelpFormat.Markdown => "markdown"

/-! ## `src/lib.rs`: configuration structures -/

/-- Configuration for bot message filtering (source: `struct BotFilteringConfig`). -/
structure BotFilteringConfig where
  ignore_self : Bool
  ignore_bots : Bool
  ignored_users : List String
deriving DecidableEq

/-- Source: `impl Default for BotFilteringConfig`. -/
def BotFilteringConfig.default : BotFilteringConfig :=
  { ignore_self := true, ignore_bots := false, ignored_users := [] }

/-- Configuration for join detection (source: `struct JoinDetectionConfig`). -/
structure JoinDetectionConfig where
  enabled : Bool
  monitored_rooms : List String
  send_welcome : Bool
  welcome_message : String
  welcome_format : HelpFormat
  welcome_timeout_seconds : Nat
deriving DecidableEq

/-- Source: `impl Default for JoinDetectionConfig`. -/
def JoinDetectionConfig.default : JoinDetectionConfig :=
  { enabled := true
    monitored_rooms := []
    send_welcome := false
    welcome_message := "Welcome to the room! Type !help for assistance."
    welcome_format := HelpFormat.Plain
    welcome_timeout_seconds := 300 }

/-- Top-level configuration (source: `struct Config`). -/
structure Config where
  homeserver : String
  username : String
  access_token : String
  log_file : String
  working_dir : String
  help_file : String
  help_format : HelpFormat
  bot_filtering : BotFilteringConfig
  join_detection : JoinDetectionConfig
deriving DecidableEq

/-! ## `src/lib.rs`: `should_ignore_user` -/

/-- Source: `pub fn should_ignore_user(user_id, bot_user_id, config) -> bool`.
Checks, in order: the ignore-self rule, the explicit ignored-users list,
and the case-insensitive "bot" substring rule. -/
def should_ignore_user (user_id bot_user_id : String)
    (config : BotFilteringConfig) : Bool :=
  if config.ignore_self = true ∧ user_id = bot_user_id then
    true
  else if config.ignored_users.contains user_id = true then
    true
  else if config.ignore_bots = true ∧ strContains (strLower user_id) "bot" = true then
    true
  else
    false

example :
    should_ignore_user "@HELP-BOT:x" "@other:x"
      { ignore_self := false, ignore_bots := true, ignored_users := [] } = true := by
  decide

example :
    should_ignore_user "@user:x" "@bot:x"
      { ignore_self := true, ignore_bots := false, ignored_users := [] } = false := by
  decide

/-! ## `src/lib.rs`: TOML configuration parsing

The toml crate's text parser is external; its output is modelled by the
`Value` tree below (a parse failure is represented by `none` at the
`Config.from_toml` boundary).  The payloads of `float` and `datetime` values
are never inspected by the source, so they are not modelled. -/

/-- Model of `toml::Value`. -/
inductive Value where
  | str (s : String)
  | integer (i : Int)
  | float
  | boolean (b : Bool)
  | datetime
  | array (xs : List Value)
  | table (kvs : List (String × Value))

/-- Model of `toml::Value::get` with a string index: a lookup on a table,
`None` on every other kind of value. -/
def Value.get (v : Value) (key : String) : Option Value :=
  match v with
  | Value.table kvs => kvs.lookup key
  | _ => none

/-- Model of `toml::Value::as_str`. -/
def Value.as_str : Value → Option String
  | Value.str s => some s
  | _ => none

/-- Model of `toml::Value::as_bool`. -/
def Value.as_bool : Value → Option Bool
  | Value.boolean b => some b
  | _ => none

/-- Model of `toml::Value::as_integer`. -/
def Value.as_integer : Value → Option Int
  | Value.integer i => some i
  | _ => none

/-- Model of `toml::Value::as_array`. -/
def Value.as_array : Value → Option (List Value)
  | Value.array xs => some xs
  | _ => none

/-- Source: `fn parse_bot_filtering_config(config: &Value)`.  Every field of
the section is optional (`unwrap_or`-style defaults); a missing section
yields `BotFilteringConfig::default()`.  This function never errors (its
`Result` has no error path in the source). -/
def parse_bot_filtering_config (config : Value) : Except String BotFilteringConfig :=
  match config.get "bot_filtering" with
  | some bot_config =>
    Except.ok
      { ignore_self := ((bot_config.get "ignore_self").bind Value.as_bool).getD true
        ignore_bots := ((bot_config.get "ignore_bots").bind Value.as_bool).getD false
        ignored_users :=
          (((bot_config.get "ignored_users").bind Value.as_array).map
            (List.filterMap Value.as_str)).getD [] }
  | none => Except.ok BotFilteringConfig.default

/-- Source: `fn parse_join_detection_config(config: &Value)`.  All fields are
optional with defaults; only an invalid `welcome_format` string errors (the
source's `.map(HelpFormat::from_str).transpose()?`).  The source computes
`enabled`, `monitored_rooms`, `send_welcome` and `welcome_message` before
`welcome_format`, but those computations are pure, so hoisting the one
fallible step preserves the result.  `welcome_timeout_seconds` mirrors the
source's `v as u64` cast of an `i64` (wrap modulo `2 ^ 64`). -/
def parse_join_detection_config (config : Value) : Except String JoinDetectionConfig :=
  match config.get "join_detection" with
  | some join_config =>
    match (match (join_config.get "welcome_format").bind Value.as_str with
           | some s => HelpFormat.from_str s
           | none => Except.ok HelpFormat.Plain) with
    | Except.error e => Except.error e
    | Except.ok welcome_format =>
      Except.ok
        { enabled := ((join_config.get "enabled").bind Value.as_bool).getD true
          monitored_rooms :=
            (((join_config.get "monitored_rooms").bind Value.as_array).map
              (List.filterMap Value.as_str)).getD []
          send_welcome := ((join_config.get "send_welcome").bind Value.as_bool).getD false
          welcome_message :=
            ((join_config.get "welcome_message").bind Value.as_str).getD
              "Welcome to the room! Type !help for assistance."
          welcome_format := welcome_format
          welcome_timeout_seconds :=
            (((join_config.get "welcome_timeout_seconds").bind Value.as_integer).map
              (fun i => (i % (2 : Int) ^ 64).toNat)).getD 300 }
  | none => Except.ok JoinDetectionConfig.default

/-- Source: the body of `Config::from_toml` after the `toml::from_str` call —
an explicit unfolding of the `?`-chain.  The four required string fields
error when absent or not a string; `log_file`, `working_directory` and
`help_format` default silently. -/
def Config.of_value (config : Value) : Except String Config :=
  match (config.get "homeserver").bind Value.as_str with
  | none => Except.error "Missing homeserver in config file"
  | some homeserver =>
    match (config.get "username").bind Value.as_str with
    | none => Except.error "Missing username in config file"
    | some username =>
      match (config.get "access_token").bind Value.as_str with
      | none => Except.error "Missing access_token in config file"
      | some access_token =>
        match (config.get "help_file").bind Value.as_str with
        | none => Except.error "Missing help_file in config file"
        | some help_file =>
          match (match (config.get "help_format").bind Value.as_str with
                 | some s => HelpFormat.from_str s
                 | none => Except.ok HelpFormat.Plain) with
          | Except.error e => Except.error e
          | Except.ok help_format =>
            match parse_bot_filtering_config config with
            | Except.error e => Except.error e
            | Except.ok bot_filtering =>
              match parse_join_detection_config config with
              | Except.error e => Except.error e
              | Except.ok join_detection =>
                Except.ok
                  { homeserver := homeserver
                    username := username
                    access_token := access_token
                    log_file := ((config.get "log_file").bind Value.as_str).getD "bot.log"
                    working_dir :=
                      ((config.get "working_directory").bind Value.as_str).getD "."
                    help_file := help_file
                    help_format := help_format
                    bot_filtering := bot_filtering
                    join_detection := join_detection }

/-- Source: `Config::from_toml`.  The external `toml::from_str` parse is
modelled at the boundary: `none` is a TOML syntax error. -/
def Config.from_toml (parsed : Option Value) : Except String Config :=
  match parsed with
  | none => Except.error "Failed to parse TOML"
  | some config => Config.of_value config

example :
    Config.from_toml (some (Value.table
      [("homeserver", Value.str "https://m.x"), ("username", Value.str "@bot:x"),
       ("access_token", Value.str "tok"), ("help_file", Value.str "help.md")])) =
    Except.ok
      { homeserver := "https://m.x", username := "@bot:x", access_token := "tok",
        log_file := "bot.log", working_dir := ".", help_file := "help.md",
        help_format := HelpFormat.Plain,
        bot_filtering := BotFilteringConfig.default,
        join_detection := JoinDetectionConfig.default } := by
  rfl

example : (Config.from_toml none).isOk = false := by rfl

example :
    (Config.from_toml (some (Value.table
      [("homeserver", Value.str "h"), ("username", Value.str "u"),
       ("access_token", Value.str "t"), ("help_file", Value.str "f"),
       ("help_format", Value.str "bogus")]))).isOk = false := by
  rfl

/-! ## `src/main.rs`: event and room model

These mirror the matrix-sdk types the handlers consume: only the fields the
source reads are modelled.  `MessageType` collapses every non-text variant
into `NonText`, since the source's `let MessageType::Text(..) = .. else return`
distinguishes exactly text from everything else. -/

/-- Matrix membership states (ruma `MembershipState`). -/
inductive MembershipState where
  | Ban
  | Invite
  | Join
  | Knock
  | Leave
deriving DecidableEq

/-- Bot-side room states (matrix-sdk `RoomState`). -/
inductive RoomState where
  | Joined
  | Left
  | Invited
  | Knocked
  | Banned
deriving DecidableEq

/-- The fields of a matrix-sdk `Room` the handlers read: `room_id()` and
`state()`. -/
structure Room where
  room_id : String
  state : RoomState
deriving DecidableEq

/-- Model of `SyncRoomMemberEvent`: either an original membership record
(`state_key`, current membership, and the membership of `prev_content()` when
one exists) or a redacted record. -/
inductive SyncRoomMemberEvent where
  | Original (state_key : String) (membership : MembershipState)
      (prev_membership : Option MembershipState)
  | Redacted (state_key : String) (membership : MembershipState)
deriving DecidableEq

/-- Source: `event.state_key()`, defined for both original and redacted
records. -/
def SyncRoomMemberEvent.state_key : SyncRoomMemberEvent → String
  | SyncRoomMemberEvent.Original sk _ _ => sk
  | SyncRoomMemberEvent.Redacted sk _ => sk

/-- Model of `StrippedRoomMemberEvent` (invite-path events): `state_key` and
`content.membership`. -/
structure StrippedRoomMemberEvent where
  state_key : String
  membership : MembershipState
deriving DecidableEq

/-- Model of ruma `MessageType` as far as the source discriminates it. -/
inductive MessageType where
  | Text (body : String)
  | NonText
deriving DecidableEq

/-- Model of `OriginalSyncRoomMessageEvent`: the source reads `event.sender`
and `event.content.msgtype`. -/
structure OriginalSyncRoomMessageEvent where
  sender : String
  msgtype : MessageType
deriving DecidableEq

/-- Model of `RoomMessageEventContent` restricted to the three constructors
the source calls; each constructor is a distinct content encoding. -/
inductive RoomMessageEventContent where
  | text_plain (body : String)
  | text_html (body : String) (html_body : String)
  | text_markdown (body : String)
deriving DecidableEq

/-- Reified side effects of the message/member handlers, in program order:
log lines (println!/eprintln!) and `room.send(..)` calls. -/
inductive BotAction where
  | logLine (line : String)
  | sendMessage (room_id : String) (content : RoomMessageEventContent)
deriving DecidableEq

/-- Specification-side helper: the `(room_id, content)` pairs of the send
actions of a handler run, in order. -/
def sentMessages : List BotAction → List (String × RoomMessageEventContent)
  | [] => []
  | BotAction.sendMessage r c :: rest => (r, c) :: sentMessages rest
  | BotAction.logLine _ :: rest => sentMessages rest

/-- Specification-side helper naming the source's three-way `match` on a
`HelpFormat` that builds a `RoomMessageEventContent`. -/
def renderFmt (fmt : HelpFormat) (text : String) : RoomMessageEventContent :=
  match fmt with
  | HelpFormat.Plain => RoomMessageEventContent.text_plain text
  | HelpFormat.Html => RoomMessageEventContent.text_html text text
  | HelpFormat.Markdown => RoomMessageEventContent.text_markdown text

/-! ## `src/main.rs`: `on_room_message` -/

/-- Source: `async fn on_room_message`.  Guards in order: the room must be
`Joined`; the message must be text; the sender must pass
`should_ignore_user`; the body must start with `"!help"`.  `sendOk` is the
result of the external `room.send(response)` call. -/
def on_room_message (event : OriginalSyncRoomMessageEvent) (room : Room)
    (help_text : String) (bot_user_id : String)
    (bot_filtering : BotFilteringConfig) (help_format : HelpFormat)
    (sendOk : Bool) : List BotAction :=
  if room.state ≠ RoomState.Joined then
    []
  else
    match event.msgtype with
    | MessageType.NonText => []
    | MessageType.Text body =>
      if should_ignore_user event.sender bot_user_id bot_filtering = true then
        [BotAction.logLine ("Ignoring message from filtered user: " ++ event.sender)]
      else if strStartsWith body "!help" = true then
        BotAction.logLine ("Received help request in room " ++ room.room_id) ::
        BotAction.sendMessage room.room_id
          (match help_format with
           | HelpFormat.Plain => RoomMessageEventContent.text_plain help_text
           | HelpFormat.Html => RoomMessageEventContent.text_html help_text help_text
           | HelpFormat.Markdown => RoomMessageEventContent.text_markdown help_text) ::
        (if sendOk = true then [] else [BotAction.logLine "Failed to send help message"])
      else
        []

/-! ## `src/main.rs`: `on_room_member` -/

/-- Outcome labels for the membership classification performed by
`on_room_member`, one label per early-`return` site of the source, in source
order, plus `newJoin` for the announcing branch. -/
inductive MemberOutcome where
  | newJoin
  | skipDisabled
  | skipNotJoined
  | skipNotMonitored
  | skipSelf
  | skipNotAJoin
  | skipRedundantUpdate
  | skipRedacted
deriving DecidableEq

/-- The classification structure of `on_room_member`: the source's guard
chain with each early `return` labelled.  Guard order is exactly the source
order: `enabled`, room `Joined`, monitored rooms, self, then the match on the
event (membership `Join`, previous membership). -/
def memberClassify (event : SyncRoomMemberEvent) (room : Room)
    (bot_user_id : String) (cfg : JoinDetectionConfig) : MemberOutcome :=
  if cfg.enabled = false then
    MemberOutcome.skipDisabled
  else if room.state ≠ RoomState.Joined then
    MemberOutcome.skipNotJoined
  else if cfg.monitored_rooms ≠ [] ∧ room.room_id ∉ cfg.monitored_rooms then
    MemberOutcome.skipNotMonitored
  else if event.state_key = bot_user_id then
    MemberOutcome.skipSelf
  else
    match event with
    | SyncRoomMemberEvent.Original _ membership prev =>
      if membership = MembershipState.Join then
        if prev = some MembershipState.Join then
          MemberOutcome.skipRedundantUpdate
        else
          MemberOutcome.newJoin
      else
        MemberOutcome.skipNotAJoin
    | SyncRoomMemberEvent.Redacted _ _ => MemberOutcome.skipRedacted

/-- Source: `async fn on_room_member`.  Same guard chain as `memberClassify`;
on the new-join branch it logs the join and, when `send_welcome` is set,
builds `"{user_id}: {welcome_message}"`, renders it per `welcome_format`,
sends it once, and logs the outcome of the send (`sendOk` is the external
`room.send(response)` result). -/
def on_room_member (event : SyncRoomMemberEvent) (room : Room)
    (bot_user_id : String) (cfg : JoinDetectionConfig)
    (sendOk : Bool) : List BotAction :=
  if cfg.enabled = false then
    []
  else if room.state ≠ RoomState.Joined then
    []
  else if cfg.monitored_rooms ≠ [] ∧ room.room_id ∉ cfg.monitored_rooms then
    []
  else
    let user_id := event.state_key
    if user_id = bot_user_id then
      []
    else
      match event with
      | SyncRoomMemberEvent.Original _ membership prev =>
        if membership = MembershipState.Join then
          if prev = some MembershipState.Join then
            []
          else
            BotAction.logLine ("User " ++ user_id ++ " joined room " ++ room.room_id) ::
            (if cfg.send_welcome = true then
              let welcome_text := user_id ++ ": " ++ cfg.welcome_message
              BotAction.sendMessage room.room_id
                (match cfg.welcome_format with
                 | HelpFormat.Plain => RoomMessageEventContent.text_plain welcome_text
                 | HelpFormat.Html =>
                   RoomMessageEventContent.text_html welcome_text welcome_text
                 | HelpFormat.Markdown =>
                   RoomMessageEventContent.text_markdown welcome_text) ::
              (if sendOk = true then
                [BotAction.logLine
                  ("Sent welcome message to " ++ user_id ++ " in room " ++ room.room_id)]
              else
                [BotAction.logLine ("Failed to send welcome message to " ++ user_id)])
            else
              [])
        else
          []
      | SyncRoomMemberEvent.Redacted _ _ => []

example :
    memberClassify (SyncRoomMemberEvent.Original "@new:x" MembershipState.Join none)
      { room_id := "!r:x", state := RoomState.Joined } "@bot:x"
      JoinDetectionConfig.default = MemberOutcome.newJoin := by
  decide

example :
    on_room_member (SyncRoomMemberEvent.Original "@new:x" MembershipState.Join none)
      { room_id := "!r:x", state := RoomState.Joined } "@bot:x"
      JoinDetectionConfig.default true =
    [BotAction.logLine "User @new:x joined room !r:x"] := by
  decide

/-! ## `src/main.rs`: `on_stripped_state_member` and the join-retry task

The spawned task's observable behaviour is a trace of events.  The external
`room.join()` operation is modelled by `joinOk : Nat → Bool`, giving the
result of the n-th join call (0-indexed) made by this task. -/

/-- Reified events of the invite handler and its spawned retry task, in
program order. -/
inductive RetryEvent where
  | inviteLog
  | attemptJoin
  | retryLog (delay : Nat)
  | sleep (delay : Nat)
  | abandonLog
  | successLog
deriving DecidableEq

/-- The source's retry loop
`while let Err(e) = room.join().await { eprintln!(..); sleep(delay); delay *= 2; if delay > 3600 { eprintln!(..); break; } }`,
starting from join call number `n` with the current `delay`.  `fuel` bounds
the recursion depth; `joinRetryAux_fuel_irrelevant` below shows that any fuel
large enough for the doubling `delay` to pass the 3600 ceiling gives the same
trace, so the fuel is not observable.  On attempt `n` the trace records the
join call; if it fails, the retry log and the sleep; then the doubled delay
is compared with the 3600 ceiling exactly as in the source. -/
def joinRetryAux (joinOk : Nat → Bool) (n delay fuel : Nat) : List RetryEvent :=
  match fuel with
  | 0 => []
  | fuel + 1 =>
    RetryEvent.attemptJoin ::
      (if joinOk n = true then
        []
      else
        RetryEvent.retryLog delay :: RetryEvent.sleep delay ::
          (if delay * 2 > 3600 then
            [RetryEvent.abandonLog]
          else
            joinRetryAux joinOk (n + 1) (delay * 2) fuel))

/-- Specification-side helper: the number of join calls in a trace. -/
def joinCallCount (tr : List RetryEvent) : Nat :=
  (tr.filter (fun e => e == RetryEvent.attemptJoin)).length

/-- Specification-side helper: the slept delays of a trace, in order. -/
def sleepDelays : List RetryEvent → List Nat
  | [] => []
  | RetryEvent.sleep d :: rest => d :: sleepDelays rest
  | _ :: rest => sleepDelays rest

/-- The body of the `tokio::spawn`ed task: the retry loop starting with
`delay = 2`, followed by the source's unconditional final `room.join()` call
whose success is reported.  The loop starting at delay 2 doubles past the
3600 ceiling within 11 iterations, so fuel 64 is never exhausted
(`joinRetryAux_fuel_irrelevant`). -/
def spawnedJoinTask (joinOk : Nat → Bool) : List RetryEvent :=
  let loopTrace := joinRetryAux joinOk 0 2 64
  loopTrace ++ RetryEvent.attemptJoin ::
    (if joinOk (joinCallCount loopTrace) = true then [RetryEvent.successLog] else [])

/-- Source: `async fn on_stripped_state_member`.  Processes only events whose
`state_key` is the bot itself; on an `Invite` membership it logs the
invitation and spawns the join-retry task. -/
def on_stripped_state_member (event : StrippedRoomMemberEvent)
    (bot_user_id : String) (joinOk : Nat → Bool) : List RetryEvent :=
  if event.state_key ≠ bot_user_id then
    []
  else if event.membership = MembershipState.Invite then
    RetryEvent.inviteLog :: spawnedJoinTask joinOk
  else
    []

/-- Fuel adequacy for the retry loop: once `3600 < delay * 2 ^ fuel`, the
trace no longer depends on the exact fuel.  In particular fuel 64 with the
source's initial delay 2 is beyond the ceiling, so `spawnedJoinTask` computes
the full loop. -/
theorem joinRetryAux_fuel_irrelevant (joinOk : Nat → Bool) :
    ∀ fuel₁ fuel₂ n delay, 1 ≤ fuel₁ → 1 ≤ fuel₂ →
      3600 < delay * 2 ^ fuel₁ → 3600 < delay * 2 ^ fuel₂ →
      joinRetryAux joinOk n delay fuel₁ = joinRetryAux joinOk n delay fuel₂ := by
  intro fuel₁
  induction fuel₁ with
  | zero => intro fuel₂ n delay h1 _ _ _; omega
  | succ f ih =>
    intro fuel₂ n delay _ h2 hc1 hc2
    match fuel₂, h2 with
    | g + 1, _ =>
      simp only [joinRetryAux]
      by_cases hj : joinOk n = true
      · simp [hj]
      · simp only [hj]
        by_cases hd : delay * 2 > 3600
        · simp [hd]
        · simp only [if_neg hd]
          have hf : 1 ≤ f := by
            by_contra hf0
            have : f = 0 := by omega
            subst this
            simp [pow_succ, pow_zero] at hc1
            omega
          have hg : 1 ≤ g := by
            by_contra hg0
            have : g = 0 := by omega
            subst this
            simp [pow_succ, pow_zero] at hc2
            omega
          have hc1' : 3600 < delay * 2 * 2 ^ f := by
            have : delay * 2 ^ (f + 1) = delay * 2 * 2 ^ f := by ring
            omega
          have hc2' : 3600 < delay * 2 * 2 ^ g := by
            have : delay * 2 ^ (g + 1) = delay * 2 * 2 ^ g := by ring
            omega
          simp [ih g (n + 1) (delay * 2) hf hg hc1' hc2']

/-! ## Claims C2 and C4: the join-retry controller -/

/-- Specification-side helper: the number of success reports in a trace. -/
def successCount (tr : List RetryEvent) : Nat :=
  (tr.filter (fun e => e == RetryEvent.successLog)).length

/-- Specification-side helper: the number of terminal failure reports in a
trace. -/
def abandonCount (tr : List RetryEvent) : Nat :=
  (tr.filter (fun e => e == RetryEvent.abandonLog)).length

/-- Specification-side helper: the part of a trace after the first success
report. -/
def eventsAfterSuccess (tr : List RetryEvent) : List RetryEvent :=
  (tr.dropWhile (fun e => !(e == RetryEvent.successLog))).drop 1

/-- Scenario input for C2: the external join operation fails on its first two
calls and succeeds from the third call on. -/
def failTwiceThenOk : Nat → Bool := fun n => decide (2 ≤ n)

/-- Scenario input for C4: the external join operation always fails. -/
def alwaysFailJoin : Nat → Bool := fun _ => false

/-- C2: on an invite for the bot itself whose join fails exactly twice and
then succeeds, the handler observes exactly the retry delays 2s then 4s,
reports success exactly once, and issues no join attempt after the success
report.  (The full trace shows the source's one extra post-loop join call,
made after the loop's successful join but before the success report.) -/
theorem c2_invite_retry_two_failures :
    on_stripped_state_member
        { state_key := "@bot:x", membership := MembershipState.Invite }
        "@bot:x" failTwiceThenOk =
      [RetryEvent.inviteLog,
       RetryEvent.attemptJoin, RetryEvent.retryLog 2, RetryEvent.sleep 2,
       RetryEvent.attemptJoin, RetryEvent.retryLog 4, RetryEvent.sleep 4,
       RetryEvent.attemptJoin,
       RetryEvent.attemptJoin, RetryEvent.successLog] ∧
    sleepDelays (on_stripped_state_member
        { state_key := "@bot:x", membership := MembershipState.Invite }
        "@bot:x" failTwiceThenOk) = [2, 4] ∧
    successCount (on_stripped_state_member
        { state_key := "@bot:x", membership := MembershipState.Invite }
        "@bot:x" failTwiceThenOk) = 1 ∧
    joinCallCount (eventsAfterSuccess (on_stripped_state_member
        { state_key := "@bot:x", membership := MembershipState.Invite }
        "@bot:x" failTwiceThenOk)) = 0 := by
  refine ⟨by decide, by decide, by decide, by decide⟩

/-- C4: on an invite for the bot itself whose join always fails, the slept
retry delays are exactly the doubling sequence 2, 4, ..., 2048 (each at most
the 3600 ceiling; the next pending delay 4096 exceeds it and stops the
loop), exactly one terminal failure report is emitted, no success is
reported, and the total number of join calls is exactly 12 — the claim's
deterministic bound ⌈log2(3600/2)⌉ + 1. -/
theorem c4_permanent_failure_backoff :
    on_stripped_state_member
        { state_key := "@bot:x", membership := MembershipState.Invite }
        "@bot:x" alwaysFailJoin =
      [RetryEvent.inviteLog,
       RetryEvent.attemptJoin, RetryEvent.retryLog 2, RetryEvent.sleep 2,
       RetryEvent.attemptJoin, RetryEvent.retryLog 4, RetryEvent.sleep 4,
       RetryEvent.attemptJoin, RetryEvent.retryLog 8, RetryEvent.sleep 8,
       RetryEvent.attemptJoin, RetryEvent.retryLog 16, RetryEvent.sleep 16,
       RetryEvent.attemptJoin, RetryEvent.retryLog 32, RetryEvent.sleep 32,
       RetryEvent.attemptJoin, RetryEvent.retryLog 64, RetryEvent.sleep 64,
       RetryEvent.attemptJoin, RetryEvent.retryLog 128, RetryEvent.sleep 128,
       RetryEvent.attemptJoin, RetryEvent.retryLog 256, RetryEvent.sleep 256,
       RetryEvent.attemptJoin, RetryEvent.retryLog 512, RetryEvent.sleep 512,
       RetryEvent.attemptJoin, RetryEvent.retryLog 1024, RetryEvent.sleep 1024,
       RetryEvent.attemptJoin, RetryEvent.retryLog 2048, RetryEvent.sleep 2048,
       RetryEvent.abandonLog,
       RetryEvent.attemptJoin] ∧
    sleepDelays (on_stripped_state_member
        { state_key := "@bot:x", membership := MembershipState.Invite }
        "@bot:x" alwaysFailJoin) =
      [2, 4, 8, 16, 32, 64, 128, 256, 512, 1024, 2048] ∧
    joinCallCount (on_stripped_state_member
        { state_key := "@bot:x", membership := MembershipState.Invite }
        "@bot:x" alwaysFailJoin) = 12 ∧
    abandonCount (on_stripped_state_member
        { state_key := "@bot:x", membership := MembershipState.Invite }
        "@bot:x" alwaysFailJoin) = 1 ∧
    successCount (on_stripped_state_member
        { state_key := "@bot:x", membership := MembershipState.Invite }
        "@bot:x" alwaysFailJoin) = 0 := by
  refine ⟨by decide, by decide, by decide, by decide, by decide⟩

/-! ## Claim C3: `should_ignore_user` -/

/-- C3: `should_ignore_user` returns true exactly when the ignore-self rule,
the ignored-users list, or the lowercase "bot" substring rule fires; it is a
pure total function of its three arguments, and in particular the bot-pattern
rule applies to the bot's own identity when `ignore_self` is off (that case
is an instance of the third disjunct). -/
theorem c3_should_ignore_user_spec (user_id bot_user_id : String)
    (config : BotFilteringConfig) :
    should_ignore_user user_id bot_user_id config = true ↔
      (config.ignore_self = true ∧ user_id = bot_user_id) ∨
      user_id ∈ config.ignored_users ∨
      (config.ignore_bots = true ∧ strContains (strLower user_id) "bot" = true) := by
  simp only [should_ignore_user]
  split
  · rename_i h1
    simp only [true_iff]
    exact Or.inl h1
  · rename_i h1
    split
    · rename_i h2
      simp only [true_iff]
      exact Or.inr (Or.inl (by simpa [List.elem_iff] using h2))
    · rename_i h2
      split
      · rename_i h3
        simp only [true_iff]
        exact Or.inr (Or.inr h3)
      · rename_i h3
        simp only [Bool.false_eq_true, false_iff]
        intro hcon
        rcases hcon with h | h | h
        · exact h1 h
        · exact h2 (by simpa [List.elem_iff] using h)
        · exact h3 h

/-! ## Claim C10: `HelpFormat` parse/display round trip -/

/-- C10: `from_str ∘ display` is the identity on `HelpFormat`; `from_str`
depends only on the lowercase form of its input as far as its successful
results go; `"md"` parses as `Markdown`; and every string whose lowercase
form is none of `plain`, `html`, `markdown`, `md` is rejected. -/
theorem c10_help_format_round_trip (f : HelpFormat) (s t : String) :
    (HelpFormat.from_str (HelpFormat.display f) = Except.ok f) ∧
    (strLower s = strLower t →
      ∀ g : HelpFormat,
        (HelpFormat.from_str s = Except.ok g ↔ HelpFormat.from_str t = Except.ok g)) ∧
    (HelpFormat.from_str "md" = Except.ok HelpFormat.Markdown) ∧
    (strLower s ∉ (["plain", "html", "markdown", "md"] : List String) →
      (HelpFormat.from_str s).isOk = false) := by
  refine ⟨?_, ?_, by rfl, ?_⟩
  · cases f <;> rfl
  · intro h g
    simp only [HelpFormat.from_str, h]
    split <;> simp
  · intro h
    simp only [HelpFormat.from_str]
    split <;> rename_i heq <;> first | rfl | simp_all

/-! ## Claim C1: the membership classifier -/

/-- C1: for a (non-redacted) membership event, `on_room_member` classifies it
as a new join (logging the join and, when `send_welcome` is set, dispatching
exactly one welcome) if and only if join detection is enabled, the bot's room
state is `Joined`, the monitored-rooms list is empty or contains the event's
room, the subject is not the bot, the new membership is `Join`, and the
previous membership is not `Join`.  The skip labels are characterized one by
one: each skip reason holds exactly when its guard fires with all earlier
guards passing, which is the short-circuit evaluation order of the source. -/
theorem c1_member_classifier_spec (room : Room) (bot_user_id : String)
    (cfg : JoinDetectionConfig) (sk : String) (m : MembershipState)
    (prev : Option MembershipState) (sendOk : Bool) :
    (memberClassify (SyncRoomMemberEvent.Original sk m prev) room bot_user_id cfg =
        MemberOutcome.newJoin ↔
      cfg.enabled = true ∧ room.state = RoomState.Joined ∧
      (cfg.monitored_rooms = [] ∨ room.room_id ∈ cfg.monitored_rooms) ∧
      sk ≠ bot_user_id ∧ m = MembershipState.Join ∧
      prev ≠ some MembershipState.Join) ∧
    (memberClassify (SyncRoomMemberEvent.Original sk m prev) room bot_user_id cfg =
        MemberOutcome.skipDisabled ↔ cfg.enabled = false) ∧
    (memberClassify (SyncRoomMemberEvent.Original sk m prev) room bot_user_id cfg =
        MemberOutcome.skipNotJoined ↔
      cfg.enabled = true ∧ room.state ≠ RoomState.Joined) ∧
    (memberClassify (SyncRoomMemberEvent.Original sk m prev) room bot_user_id cfg =
        MemberOutcome.skipNotMonitored ↔
      cfg.enabled = true ∧ room.state = RoomState.Joined ∧
      cfg.monitored_rooms ≠ [] ∧ room.room_id ∉ cfg.monitored_rooms) ∧
    (memberClassify (SyncRoomMemberEvent.Original sk m prev) room bot_user_id cfg =
        MemberOutcome.skipSelf ↔
      cfg.enabled = true ∧ room.state = RoomState.Joined ∧
      (cfg.monitored_rooms = [] ∨ room.room_id ∈ cfg.monitored_rooms) ∧
      sk = bot_user_id) ∧
    (memberClassify (SyncRoomMemberEvent.Original sk m prev) room bot_user_id cfg =
        MemberOutcome.skipNotAJoin ↔
      cfg.enabled = true ∧ room.state = RoomState.Joined ∧
      (cfg.monitored_rooms = [] ∨ room.room_id ∈ cfg.monitored_rooms) ∧
      sk ≠ bot_user_id ∧ m ≠ MembershipState.Join) ∧
    (memberClassify (SyncRoomMemberEvent.Original sk m prev) room bot_user_id cfg =
        MemberOutcome.skipRedundantUpdate ↔
      cfg.enabled = true ∧ room.state = RoomState.Joined ∧
      (cfg.monitored_rooms = [] ∨ room.room_id ∈ cfg.monitored_rooms) ∧
      sk ≠ bot_user_id ∧ m = MembershipState.Join ∧
      prev = some MembershipState.Join) ∧
    (on_room_member (SyncRoomMemberEvent.Original sk m prev) room bot_user_id cfg
        sendOk =
      if memberClassify (SyncRoomMemberEvent.Original sk m prev) room bot_user_id
          cfg = MemberOutcome.newJoin then
        BotAction.logLine ("User " ++ sk ++ " joined room " ++ room.room_id) ::
        (if cfg.send_welcome = true then
          BotAction.sendMessage room.room_id
            (renderFmt cfg.welcome_format (sk ++ ": " ++ cfg.welcome_message)) ::
          (if sendOk = true then
            [BotAction.logLine
              ("Sent welcome message to " ++ sk ++ " in room " ++ room.room_id)]
          else
            [BotAction.logLine ("Failed to send welcome message to " ++ sk)])
        else
          [])
      else
        []) := by
  by_cases hE : cfg.enabled = true <;>
  by_cases hS : room.state = RoomState.Joined <;>
  by_cases hM : cfg.monitored_rooms = [] <;>
  by_cases hC : room.room_id ∈ cfg.monitored_rooms <;>
  by_cases hB : sk = bot_user_id <;>
  by_cases hJ : m = MembershipState.Join <;>
  by_cases hP : prev = some MembershipState.Join <;>
  simp_all [memberClassify, on_room_member, renderFmt, SyncRoomMemberEvent.state_key]

/-! ## Claim C5: the welcome dispatcher -/

/-- C5: on a qualifying new join with `send_welcome` enabled, the dispatched
text is exactly `subject ++ ": " ++ template` rendered per the configured
format; exactly one send is performed (for both outcomes of the external
send); the three formats map to distinct content encodings; and a send
failure only changes the final log line of the handler run — it is never
retried and produces no error beyond the log. -/
theorem c5_welcome_dispatch_spec (room : Room) (bot_user_id sk : String)
    (prev : Option MembershipState) (cfg : JoinDetectionConfig) (sendOk : Bool)
    (hE : cfg.enabled = true) (hS : room.state = RoomState.Joined)
    (hM : cfg.monitored_rooms = [] ∨ room.room_id ∈ cfg.monitored_rooms)
    (hB : sk ≠ bot_user_id) (hP : prev ≠ some MembershipState.Join)
    (hW : cfg.send_welcome = true) :
    sentMessages (on_room_member
        (SyncRoomMemberEvent.Original sk MembershipState.Join prev) room
        bot_user_id cfg sendOk) =
      [(room.room_id,
        renderFmt cfg.welcome_format (sk ++ ": " ++ cfg.welcome_message))] ∧
    (∀ t : String,
      renderFmt HelpFormat.Plain t ≠ renderFmt HelpFormat.Html t ∧
      renderFmt HelpFormat.Plain t ≠ renderFmt HelpFormat.Markdown t ∧
      renderFmt HelpFormat.Html t ≠ renderFmt HelpFormat.Markdown t) ∧
    (on_room_member (SyncRoomMemberEvent.Original sk MembershipState.Join prev)
        room bot_user_id cfg false =
      (on_room_member (SyncRoomMemberEvent.Original sk MembershipState.Join prev)
        room bot_user_id cfg true).dropLast ++
        [BotAction.logLine ("Failed to send welcome message to " ++ sk)]) := by
  refine ⟨?_, ?_, ?_⟩
  · cases sendOk <;> rcases hM with hM | hM <;>
      simp [on_room_member, sentMessages, renderFmt,
        SyncRoomMemberEvent.state_key, hE, hS, hM, hB, hP, hW]
  · intro t
    refine ⟨?_, ?_, ?_⟩ <;> simp [renderFmt]
  · rcases hM with hM | hM <;>
      simp [on_room_member, SyncRoomMemberEvent.state_key, hE, hS, hM, hB, hP, hW]

/-- Witness for C5: the end-to-end scenario of the spec — subject `"@new:x"`,
no previous membership, empty monitored-rooms list, welcome enabled. -/
theorem c5_welcome_dispatch_spec_witness :
    sentMessages (on_room_member
        (SyncRoomMemberEvent.Original "@new:x" MembershipState.Join none)
        { room_id := "!r:x", state := RoomState.Joined } "@bot:x"
        { enabled := true, monitored_rooms := [], send_welcome := true,
          welcome_message := "Welcome to the room! Type !help for assistance.",
          welcome_format := HelpFormat.Plain, welcome_timeout_seconds := 300 }
        true) =
      [("!r:x",
        renderFmt HelpFormat.Plain
          "@new:x: Welcome to the room! Type !help for assistance.")] :=
  (c5_welcome_dispatch_spec
    { room_id := "!r:x", state := RoomState.Joined } "@bot:x" "@new:x" none
    { enabled := true, monitored_rooms := [], send_welcome := true,
      welcome_message := "Welcome to the room! Type !help for assistance.",
      welcome_format := HelpFormat.Plain, welcome_timeout_seconds := 300 }
    true rfl rfl (Or.inl rfl) (by decide) (by decide) rfl).1

/-! ## Claim C6: the help command -/

/-- C6: a text message produces exactly one send — the help text rendered in
the configured format — precisely when the room is joined, the sender is not
ignored, and the body starts with `"!help"`; any non-text message produces no
send. -/
theorem c6_help_command_spec (sender body : String) (room : Room)
    (help_text bot_user_id : String) (bf : BotFilteringConfig)
    (fmt : HelpFormat) (sendOk : Bool) :
    (sentMessages (on_room_message { sender := sender, msgtype := MessageType.Text body }
        room help_text bot_user_id bf fmt sendOk) =
      if room.state = RoomState.Joined ∧
          should_ignore_user sender bot_user_id bf = false ∧
          strStartsWith body "!help" = true then
        [(room.room_id, renderFmt fmt help_text)]
      else
        []) ∧
    (sentMessages (on_room_message { sender := sender, msgtype := MessageType.NonText }
        room help_text bot_user_id bf fmt sendOk) = []) := by
  constructor
  · by_cases hS : room.state = RoomState.Joined <;>
    by_cases hI : should_ignore_user sender bot_user_id bf = true <;>
    by_cases hH : strStartsWith body "!help" = true <;>
    cases sendOk <;>
    simp_all [on_room_message, sentMessages, renderFmt]
  · cases sendOk <;> simp [on_room_message, sentMessages]

/-! ## Claim C7: `welcome_timeout_seconds` is never consulted -/

/-- C7: two join-detection configurations that differ only in
`welcome_timeout_seconds` produce identical `on_room_member` behaviour
(identical action lists, hence identical sends and logs) and identical
classifications, on every event, room, identity and send outcome. -/
theorem c7_welcome_timeout_unused (cfg : JoinDetectionConfig) (t₁ t₂ : Nat)
    (event : SyncRoomMemberEvent) (room : Room) (bot_user_id : String)
    (sendOk : Bool) :
    on_room_member event room bot_user_id
        { cfg with welcome_timeout_seconds := t₁ } sendOk =
      on_room_member event room bot_user_id
        { cfg with welcome_timeout_seconds := t₂ } sendOk ∧
    memberClassify event room bot_user_id
        { cfg with welcome_timeout_seconds := t₁ } =
      memberClassify event room bot_user_id
        { cfg with welcome_timeout_seconds := t₂ } := by
  cases cfg
  exact ⟨rfl, rfl⟩

/-! ## Claim C8: redacted membership records -/

/-- C8: a redacted membership record is never classified as a new join and
`on_room_member` performs no action at all on it (no welcome, no log, no
error), for every configuration, room state and identity. -/
theorem c8_redacted_skipped (cfg : JoinDetectionConfig) (room : Room)
    (bot_user_id sk : String) (m : MembershipState) (sendOk : Bool) :
    on_room_member (SyncRoomMemberEvent.Redacted sk m) room bot_user_id cfg
        sendOk = [] ∧
    memberClassify (SyncRoomMemberEvent.Redacted sk m) room bot_user_id cfg ≠
      MemberOutcome.newJoin := by
  refine ⟨?_, ?_⟩ <;>
    simp only [on_room_member, memberClassify, SyncRoomMemberEvent.state_key] <;>
    (repeat' split) <;> simp

/-! ## Claim C9: `Config::from_toml` -/

/-- Specification-side predicate (from the claim's words): `key` is present
in `v` with a string value. -/
def requiredStringPresent (v : Value) (key : String) : Bool :=
  ((v.get key).bind Value.as_str).isSome

/-- Specification-side predicate (from the claim's words): the format field
`key` of `v` is absent or not a string (then it defaults), or is a string
accepted by `HelpFormat.from_str`. -/
def formatFieldOk (v : Value) (key : String) : Bool :=
  match (v.get key).bind Value.as_str with
  | some s => (HelpFormat.from_str s).isOk
  | none => true

/-- Specification-side predicate (from the claim's words): the exact success
condition C9 asserts for `Config::from_toml` — valid TOML, the four required
string fields present, and both format fields valid when present as strings. -/
def fromTomlSpecOk (parsed : Option Value) : Bool :=
  match parsed with
  | none => false
  | some v =>
    requiredStringPresent v "homeserver" && requiredStringPresent v "username" &&
    requiredStringPresent v "access_token" && requiredStringPresent v "help_file" &&
    formatFieldOk v "help_format" &&
    (match v.get "join_detection" with
     | some jc => formatFieldOk jc "welcome_format"
     | none => true)

/-- Helper: `isOk` on a success. -/
theorem except_isOk_ok {ε α : Type} (a : α) :
    (Except.ok a : Except ε α).isOk = true := rfl

/-- Helper: `isOk` on an error. -/
theorem except_isOk_error {ε α : Type} (e : ε) :
    (Except.error e : Except ε α).isOk = false := rfl

/-- Helper: `parse_bot_filtering_config` has no error path. -/
theorem parse_bot_filtering_config_ne_error (v : Value) (e : String) :
    parse_bot_filtering_config v ≠ Except.error e := by
  simp only [parse_bot_filtering_config]
  split <;> simp

/-- Helper: `parse_join_detection_config` succeeds exactly when the
`welcome_format` field of the `join_detection` section (when both exist) is
valid. -/
theorem parse_join_detection_config_isOk (v : Value) :
    (parse_join_detection_config v).isOk =
      (match v.get "join_detection" with
       | some jc => formatFieldOk jc "welcome_format"
       | none => true) := by
  simp only [parse_join_detection_config, formatFieldOk]
  cases hjd : v.get "join_detection" with
  | none => rfl
  | some jc =>
    cases hwf : (jc.get "welcome_format").bind Value.as_str with
    | none => simp [hwf, except_isOk_ok]
    | some s =>
      cases hfs : HelpFormat.from_str s with
      | error e => simp [hwf, hfs, except_isOk_error]
      | ok f => simp [hwf, hfs, except_isOk_ok]

/-- Helper: inversion of a successful `Config.of_value` run — the optional
top-level fields of the result, and the success of both section parsers on
the sub-configurations actually stored. -/
theorem of_value_ok_shape (v : Value) (cfg : Config)
    (h : Config.of_value v = Except.ok cfg) :
    cfg.log_file = ((v.get "log_file").bind Value.as_str).getD "bot.log" ∧
    cfg.working_dir = ((v.get "working_directory").bind Value.as_str).getD "." ∧
    ((v.get "help_format").bind Value.as_str = none →
      cfg.help_format = HelpFormat.Plain) ∧
    parse_bot_filtering_config v = Except.ok cfg.bot_filtering ∧
    parse_join_detection_config v = Except.ok cfg.join_detection := by
  simp only [Config.of_value] at h
  cases hhs : (v.get "homeserver").bind Value.as_str <;> simp only [hhs] at h
  case none => exact Except.noConfusion h
  cases hun : (v.get "username").bind Value.as_str <;> simp only [hun] at h
  case none => exact Except.noConfusion h
  cases hat : (v.get "access_token").bind Value.as_str <;> simp only [hat] at h
  case none => exact Except.noConfusion h
  cases hhf : (v.get "help_file").bind Value.as_str <;> simp only [hhf] at h
  case none => exact Except.noConfusion h
  cases hfm : (v.get "help_format").bind Value.as_str <;> simp only [hfm] at h
  case some s =>
    cases hfs : HelpFormat.from_str s <;> simp only [hfs] at h
    case error e => exact Except.noConfusion h
    cases hbf : parse_bot_filtering_config v <;> simp only [hbf] at h
    case error e => exact Except.noConfusion h
    cases hjd : parse_join_detection_config v <;> simp only [hjd] at h
    case error e => exact Except.noConfusion h
    injection h with h
    subst h
    exact ⟨rfl, rfl, fun hx => Option.noConfusion hx, rfl, rfl⟩
  case none =>
    cases hbf : parse_bot_filtering_config v <;> simp only [hbf] at h
    case error e => exact Except.noConfusion h
    cases hjd : parse_join_detection_config v <;> simp only [hjd] at h
    case error e => exact Except.noConfusion h
    injection h with h
    subst h
    exact ⟨rfl, rfl, fun _ => rfl, rfl, rfl⟩

/-- Helper: the defaulting behaviour of the `bot_filtering` section fields. -/
theorem parse_bot_filtering_config_defaults (v : Value) (bf : BotFilteringConfig)
    (h : parse_bot_filtering_config v = Except.ok bf) :
    ((v.get "bot_filtering").bind
        (fun b => (b.get "ignore_self").bind Value.as_bool) = none →
      bf.ignore_self = true) ∧
    ((v.get "bot_filtering").bind
        (fun b => (b.get "ignore_bots").bind Value.as_bool) = none →
      bf.ignore_bots = false) ∧
    ((v.get "bot_filtering").bind
        (fun b => (b.get "ignored_users").bind Value.as_array) = none →
      bf.ignored_users = []) := by
  simp only [parse_bot_filtering_config] at h
  cases hbc : v.get "bot_filtering" <;> simp only [hbc] at h <;>
    injection h with h <;> subst h
  · exact ⟨fun _ => rfl, fun _ => rfl, fun _ => rfl⟩
  · refine ⟨?_, ?_, ?_⟩ <;> intro hx <;> simp only [Option.some_bind] at hx <;>
      simp [hx]

/-- Helper: the defaulting behaviour of the `join_detection` section fields. -/
theorem parse_join_detection_config_defaults (v : Value) (jd : JoinDetectionConfig)
    (h : parse_join_detection_config v = Except.ok jd) :
    ((v.get "join_detection").bind
        (fun j => (j.get "monitored_rooms").bind Value.as_array) = none →
      jd.monitored_rooms = []) ∧
    ((v.get "join_detection").bind
        (fun j => (j.get "send_welcome").bind Value.as_bool) = none →
      jd.send_welcome = false) ∧
    ((v.get "join_detection").bind
        (fun j => (j.get "welcome_message").bind Value.as_str) = none →
      jd.welcome_message = "Welcome to the room! Type !help for assistance.") ∧
    ((v.get "join_detection").bind
        (fun j => (j.get "welcome_format").bind Value.as_str) = none →
      jd.welcome_format = HelpFormat.Plain) ∧
    ((v.get "join_detection").bind
        (fun j => (j.get "welcome_timeout_seconds").bind Value.as_integer) = none →
      jd.welcome_timeout_seconds = 300) := by
  simp only [parse_join_detection_config] at h
  cases hjc : v.get "join_detection" <;> simp only [hjc] at h
  · injection h with h
    subst h
    exact ⟨fun _ => rfl, fun _ => rfl, fun _ => rfl, fun _ => rfl, fun _ => rfl⟩
  · rename_i jc
    cases hwf : (jc.get "welcome_format").bind Value.as_str <;> simp only [hwf] at h
    · injection h with h
      subst h
      refine ⟨?_, ?_, ?_, ?_, ?_⟩ <;> intro hx <;>
        simp only [Option.some_bind] at hx <;> simp [hx]
    · rename_i s
      cases hfs : HelpFormat.from_str s <;> simp only [hfs] at h
      · exact Except.noConfusion h
      · injection h with h
        subst h
        refine ⟨?_, ?_, ?_, ?_, ?_⟩ <;> intro hx <;>
          simp only [Option.some_bind] at hx
        · simp [hx]
        · simp [hx]
        · simp [hx]
        · rw [hwf] at hx
          exact Option.noConfusion hx
        · simp [hx]

/-- C9: `Config::from_toml` errors exactly when the TOML text does not parse,
a required string field (`homeserver`, `username`, `access_token`,
`help_file`) is absent or not a string, or a present `help_format` /
`welcome_format` string is invalid; and every optional field silently takes
its documented default when absent (or of the wrong type). -/
theorem c9_from_toml_spec (parsed : Option Value) (v : Value) (cfg : Config) :
    (Config.from_toml parsed).isOk = fromTomlSpecOk parsed ∧
    (Config.from_toml (some v) = Except.ok cfg →
      ((v.get "log_file").bind Value.as_str = none → cfg.log_file = "bot.log") ∧
      ((v.get "working_directory").bind Value.as_str = none →
        cfg.working_dir = ".") ∧
      ((v.get "help_format").bind Value.as_str = none →
        cfg.help_format = HelpFormat.Plain) ∧
      ((v.get "bot_filtering").bind
          (fun b => (b.get "ignore_self").bind Value.as_bool) = none →
        cfg.bot_filtering.ignore_self = true) ∧
      ((v.get "bot_filtering").bind
          (fun b => (b.get "ignore_bots").bind Value.as_bool) = none →
        cfg.bot_filtering.ignore_bots = false) ∧
      ((v.get "bot_filtering").bind
          (fun b => (b.get "ignored_users").bind Value.as_array) = none →
        cfg.bot_filtering.ignored_users = []) ∧
      ((v.get "join_detection").bind
          (fun j => (j.get "monitored_rooms").bind Value.as_array) = none →
        cfg.join_detection.monitored_rooms = []) ∧
      ((v.get "join_detection").bind
          (fun j => (j.get "send_welcome").bind Value.as_bool) = none →
        cfg.join_detection.send_welcome = false) ∧
      ((v.get "join_detection").bind
          (fun j => (j.get "welcome_message").bind Value.as_str) = none →
        cfg.join_detection.welcome_message =
          "Welcome to the room! Type !help for assistance.") ∧
      ((v.get "join_detection").bind
          (fun j => (j.get "welcome_format").bind Value.as_str) = none →
        cfg.join_detection.welcome_format = HelpFormat.Plain) ∧
      ((v.get "join_detection").bind
          (fun j => (j.get "welcome_timeout_seconds").bind Value.as_integer) =
            none →
        cfg.join_detection.welcome_timeout_seconds = 300)) := by
  constructor
  · cases parsed with
    | none => rfl
    | some w =>
      simp only [Config.from_toml, fromTomlSpecOk]
      rw [← parse_join_detection_config_isOk w]
      cases hhs : (w.get "homeserver").bind Value.as_str with
      | none =>
        simp [Config.of_value, requiredStringPresent, hhs, except_isOk_ok, except_isOk_error]
      | some s1 =>
      cases hun : (w.get "username").bind Value.as_str with
      | none =>
        simp [Config.of_value, requiredStringPresent, hhs, hun, except_isOk_ok, except_isOk_error]
      | some s2 =>
      cases hat : (w.get "access_token").bind Value.as_str with
      | none =>
        simp [Config.of_value, requiredStringPresent, hhs, hun, hat, except_isOk_ok, except_isOk_error]
      | some s3 =>
      cases hhf : (w.get "help_file").bind Value.as_str with
      | none =>
        simp [Config.of_value, requiredStringPresent, hhs, hun, hat, hhf,
          except_isOk_ok, except_isOk_error]
      | some s4 =>
      cases hfm : (w.get "help_format").bind Value.as_str with
      | none =>
        cases hbf : parse_bot_filtering_config w with
        | error e => exact absurd hbf (parse_bot_filtering_config_ne_error w e)
        | ok bf =>
          cases hjd : parse_join_detection_config w with
          | error e =>
            simp [Config.of_value, requiredStringPresent, formatFieldOk, hhs,
              hun, hat, hhf, hfm, hbf, hjd, except_isOk_ok, except_isOk_error]
          | ok jd =>
            simp [Config.of_value, requiredStringPresent, formatFieldOk, hhs,
              hun, hat, hhf, hfm, hbf, hjd, except_isOk_ok, except_isOk_error]
      | some s5 =>
        cases hfs : HelpFormat.from_str s5 with
        | error e =>
          simp [Config.of_value, requiredStringPresent, formatFieldOk, hhs,
            hun, hat, hhf, hfm, hfs, except_isOk_ok, except_isOk_error]
        | ok f =>
          cases hbf : parse_bot_filtering_config w with
          | error e => exact absurd hbf (parse_bot_filtering_config_ne_error w e)
          | ok bf =>
            cases hjd : parse_join_detection_config w with
            | error e =>
              simp [Config.of_value, requiredStringPresent, formatFieldOk, hhs,
                hun, hat, hhf, hfm, hfs, hbf, hjd, except_isOk_ok, except_isOk_error]
            | ok jd =>
              simp [Config.of_value, requiredStringPresent, formatFieldOk, hhs,
                hun, hat, hhf, hfm, hfs, hbf, hjd, except_isOk_ok, except_isOk_error]
  · intro h
    simp only [Config.from_toml] at h
    obtain ⟨hlog, hwd, hfmt, hbf, hjd⟩ := of_value_ok_shape v cfg h
    obtain ⟨hbf1, hbf2, hbf3⟩ :=
      parse_bot_filtering_config_defaults v cfg.bot_filtering hbf
    obtain ⟨hjd1, hjd2, hjd3, hjd4, hjd5⟩ :=
      parse_join_detection_config_defaults v cfg.join_detection hjd
    refine ⟨?_, ?_, hfmt, hbf1, hbf2, hbf3, hjd1, hjd2, hjd3, hjd4, hjd5⟩
    · intro hx
      rw [hlog, hx]
      rfl
    · intro hx
      rw [hwd, hx]
      rfl

/-- Witness for C9: the minimal valid table — the four required strings only —
parses successfully and its parse satisfies the equations of the theorem's
hypothesis, so every optional field takes its default. -/
theorem c9_from_toml_spec_witness :
    (Config.from_toml (some (Value.table
        [("homeserver", Value.str "https://m.x"), ("username", Value.str "@bot:x"),
         ("access_token", Value.str "tok"), ("help_file", Value.str "help.md")]))).isOk =
      fromTomlSpecOk (some (Value.table
        [("homeserver", Value.str "https://m.x"), ("username", Value.str "@bot:x"),
         ("access_token", Value.str "tok"), ("help_file", Value.str "help.md")])) ∧
    ({ homeserver := "https://m.x", username := "@bot:x", access_token := "tok",
       log_file := "bot.log", working_dir := ".", help_file := "help.md",
       help_format := HelpFormat.Plain,
       bot_filtering := BotFilteringConfig.default,
       join_detection := JoinDetectionConfig.default } : Config).log_file =
      "bot.log" ∧
    ({ homeserver := "https://m.x", username := "@bot:x", access_token := "tok",
       log_file := "bot.log", working_dir := ".", help_file := "help.md",
       help_format := HelpFormat.Plain,
       bot_filtering := BotFilteringConfig.default,
       join_detection := JoinDetectionConfig.default } : Config).join_detection.welcome_timeout_seconds =
      300 :=
  ⟨(c9_from_toml_spec (some (Value.table
      [("homeserver", Value.str "https://m.x"), ("username", Value.str "@bot:x"),
       ("access_token", Value.str "tok"), ("help_file", Value.str "help.md")]))
      (Value.table
      [("homeserver", Value.str "https://m.x"), ("username", Value.str "@bot:x"),
       ("access_token", Value.str "tok"), ("help_file", Value.str "help.md")])
      { homeserver := "https://m.x", username := "@bot:x", access_token := "tok",
        log_file := "bot.log", working_dir := ".", help_file := "help.md",
        help_format := HelpFormat.Plain,
        bot_filtering := BotFilteringConfig.default,
        join_detection := JoinDetectionConfig.default }).1,
   ((c9_from_toml_spec (some (Value.table
      [("homeserver", Value.str "https://m.x"), ("username", Value.str "@bot:x"),
       ("access_token", Value.str "tok"), ("help_file", Value.str "help.md")]))
      (Value.table
      [("homeserver", Value.str "https://m.x"), ("username", Value.str "@bot:x"),
       ("access_token", Value.str "tok"), ("help_file", Value.str "help.md")])
      { homeserver := "https://m.x", username := "@bot:x", access_token := "tok",
        log_file := "bot.log", working_dir := ".", help_file := "help.md",
        help_format := HelpFormat.Plain,
        bot_filtering := BotFilteringConfig.default,
        join_detection := JoinDetectionConfig.default }).2 (by rfl)).1 (by rfl),
   ((c9_from_toml_spec (some (Value.table
      [("homeserver", Value.str "https://m.x"), ("username", Value.str "@bot:x"),
       ("access_token", Value.str "tok"), ("help_file", Value.str "help.md")]))
      (Value.table
      [("homeserver", Value.str "https://m.x"), ("username", Value.str "@bot:x"),
       ("access_token", Value.str "tok"), ("help_file", Value.str "help.md")])
      { homeserver := "https://m.x", username := "@bot:x", access_token := "tok",
        log_file := "bot.log", working_dir := ".", help_file := "help.md",
        help_format := HelpFormat.Plain,
        bot_filtering := BotFilteringConfig.default,
        join_detection := JoinDetectionConfig.default }).2 (by rfl)).2.2.2.2.2.2.2.2.2.2 (by rfl)⟩

/-- Witness for C10 at concrete inputs: the round trip at `Plain` and the
rejection of `"bogus"`. -/
theorem c10_help_format_round_trip_witness :
    (HelpFormat.from_str (HelpFormat.display HelpFormat.Plain) =
      Except.ok HelpFormat.Plain) ∧
    strLower "bogus" ∉ (["plain", "html", "markdown", "md"] : List String) ∧
    (HelpFormat.from_str "bogus").isOk = false :=
  ⟨(c10_help_format_round_trip HelpFormat.Plain "bogus" "bogus").1, by decide,
   (c10_help_format_round_trip HelpFormat.Plain "bogus" "bogus").2.2.2 (by decide)⟩
